import Mathlib

/-!
Shallow embedding of the H-Ecommerce server (src/server/storage.ts,
src/server/routes.ts, src/server/auth.ts, src/shared/schema.ts).

The external Supabase database is modelled as an explicit `DB` state of row
lists.  Each storage method becomes a state-passing function; a thrown
exception becomes `Except.error`.  The supabase-js call `.single()` reports an
error whenever the result is not exactly one row, and `.maybeSingle()` reports
an error whenever more than one row matches; both are embedded accordingly.
`Promise.all` over the order items is embedded as a left-to-right sequential
fold (the claims under verification are stated for sequential execution with
no concurrent writers).  Database-side schema facts that are not in the
repository (unique constraints, referential behaviour) are modelled from the
spec and marked as such on their definitions.
-/

/-- Substring test on character lists (helper for the embedding of
JavaScript's `String.prototype.includes`). -/
def goSub (pat : List Char) : List Char → Bool
  | [] => pat.isEmpty
  | c :: rest => List.isPrefixOf pat (c :: rest) || goSub pat rest

/-- `s.includes pat` from JavaScript. -/
def hasSub (s pat : String) : Bool := goSub pat.data s.data

/-- `s.startsWith pre`, computed on the character lists. -/
def strStarts (s pre : String) : Bool := List.isPrefixOf pre.data s.data

/-- Drop the first `n` characters of a string. -/
def strDrop (s : String) (n : Nat) : String := String.mk (s.data.drop n)

/-- Decidable equality of `Except` results. -/
instance {ε α : Type} [DecidableEq ε] [DecidableEq α] : DecidableEq (Except ε α)
  | Except.error a, Except.error b =>
    if h : a = b then isTrue (congrArg Except.error h)
    else isFalse (fun hh => h (Except.error.inj hh))
  | Except.error _, Except.ok _ => isFalse (fun hh => Except.noConfusion hh)
  | Except.ok _, Except.error _ => isFalse (fun hh => Except.noConfusion hh)
  | Except.ok a, Except.ok b =>
    if h : a = b then isTrue (congrArg Except.ok h)
    else isFalse (fun hh => h (Except.ok.inj hh))

-- ======================================================================
-- Data model (src/shared/schema.ts)
-- ======================================================================

/-- A row of the `products` table (schema.ts `Product`). -/
structure ProductRow where
  id : Nat
  name : String
  price : Int
  stockQuantity : Int
  categoryId : Option Nat
deriving Repr, DecidableEq

/-- A row of the `categories` table (schema.ts `Category`). -/
structure CategoryRow where
  id : Nat
  name : String
  slug : String
deriving Repr, DecidableEq

/-- A row of the `tags` table (schema.ts `Tag`). -/
structure TagRow where
  id : Nat
  name : String
  slug : String
deriving Repr, DecidableEq

/-- A row of the `orders` table (schema.ts `Order`). -/
structure OrderRow where
  id : Nat
  customerWhatsapp : String
  orderStatus : String
deriving Repr, DecidableEq

/-- A row of the `order_items` table (schema.ts `OrderItem`). -/
structure OrderItemRow where
  id : Nat
  orderId : Nat
  productId : Nat
  quantity : Int
  price : Int
deriving Repr, DecidableEq

/-- The state of the external database: one list per table, plus fresh-id
counters for the serial primary keys. `productTags` and `categoryTags` hold
(productId, tagId) resp. (categoryId, tagId) pairs. -/
structure DB where
  products : List ProductRow
  categories : List CategoryRow
  tags : List TagRow
  productTags : List (Nat × Nat)
  categoryTags : List (Nat × Nat)
  orders : List OrderRow
  orderItems : List OrderItemRow
  nextOrderId : Nat
  nextOrderItemId : Nat
  nextTagId : Nat
deriving Repr, DecidableEq

/-- Parsed output of `insertOrderSchema` (schema.ts:91-94): `orderStatus`
carries the zod default. -/
structure InsertOrder where
  customerWhatsapp : String
  orderStatus : String
deriving Repr, DecidableEq

/-- Parsed output of `insertOrderItemSchema` (schema.ts:107-112). The
`orderId` of the request body is carried along but overwritten by
`createOrder` when the row is inserted (`order_id: newOrder.id`). -/
structure InsertOrderItem where
  orderId : Int
  productId : Nat
  quantity : Int
  price : Int
deriving Repr, DecidableEq

/-- Parsed output of `insertTagSchema` (schema.ts:38-41). -/
structure InsertTag where
  name : String
  slug : String
deriving Repr, DecidableEq

/-- A raw request body for the orders endpoint: either field may be absent. -/
structure OrderReq where
  customerWhatsapp : Option String
  orderStatus : Option String
deriving Repr, DecidableEq

/-- A raw request body for the tags endpoints: either field may be absent. -/
structure TagReq where
  name : Option String
  slug : Option String
deriving Repr, DecidableEq

/-- The subset of `Partial Tag` that `updateTag` reads. -/
structure TagPatch where
  name : Option String
  slug : Option String
deriving Repr, DecidableEq

/-- `insertOrderSchema.safeParse` (schema.ts:91-94): `customerWhatsapp` is a
required string of length at least 1; `orderStatus` is a string defaulting to
"New" when the key is absent. -/
def parseInsertOrder (r : OrderReq) : Except String InsertOrder :=
  match r.customerWhatsapp with
  | none => Except.error "WhatsApp number is required"
  | some w =>
    if w.length < 1 then Except.error "WhatsApp number is required"
    else Except.ok { customerWhatsapp := w, orderStatus := r.orderStatus.getD "New" }

/-- `insertTagSchema.safeParse` (schema.ts:38-41): both fields required,
minimum length 1. -/
def parseInsertTag (r : TagReq) : Except String InsertTag :=
  match r.name, r.slug with
  | some n, some s =>
    if n.length < 1 || s.length < 1 then Except.error "Tag name and slug are required"
    else Except.ok { name := n, slug := s }
  | _, _ => Except.error "Required"

/-- `insertTagSchema.partial().safeParse` (routes.ts:393): each field is
optional, but a provided field must still have length at least 1. -/
def parseTagPatch (r : TagReq) : Except String TagPatch :=
  if (match r.name with | some n => n.length < 1 | none => false)
      || (match r.slug with | some s => s.length < 1 | none => false) then
    Except.error "Tag name and slug must be non-empty when provided"
  else Except.ok { name := r.name, slug := r.slug }

-- ======================================================================
-- Order ledger (storage.ts:561-606, SupabaseStorage.createOrder)
-- ======================================================================

/-- `supabase.from("products").select("stock_quantity").eq("id", pid).single()`:
`.single()` reports an error unless exactly one row matches. -/
def lookupStockSingle (products : List ProductRow) (pid : Nat) : Except String Int :=
  match products.filter (fun p => p.id == pid) with
  | [p] => Except.ok p.stockQuantity
  | _ => Except.error "JSON object requested, multiple (or no) rows returned"

/-- `supabase.from("products").update(stock_quantity).eq("id", pid)`: every
row with the given id gets the new stock value. -/
def setStock (products : List ProductRow) (pid : Nat) (v : Int) : List ProductRow :=
  products.map (fun p => if p.id == pid then { p with stockQuantity := v } else p)

/-- `supabase.from("order_items").insert(...item, order_id: newOrder.id)`
(storage.ts:575-577): the row's orderId is the new order's id, not the one
from the request body. -/
def insertOrderItemRow (db : DB) (oid : Nat) (it : InsertOrderItem) : DB :=
  { db with
    orderItems := db.orderItems ++
      [{ id := db.nextOrderItemId, orderId := oid, productId := it.productId,
         quantity := it.quantity, price := it.price }],
    nextOrderItemId := db.nextOrderItemId + 1 }

/-- One iteration of the item loop in `createOrder` (storage.ts:574-596):
insert the OrderItem row, then read the product's stock with `.single()`
(throwing if not exactly one row), then write back `stock - quantity`. -/
def processOrderItem (db : DB) (oid : Nat) (it : InsertOrderItem) : DB × Option String :=
  let db1 := insertOrderItemRow db oid it
  match lookupStockSingle db1.products it.productId with
  | Except.error e => (db1, some e)
  | Except.ok q =>
    ({ db1 with products := setStock db1.products it.productId (q - it.quantity) }, none)

/-- The `Promise.all(items.map ...)` of storage.ts:573-597, sequentialised in
list order; the first thrown error aborts the remaining iterations. -/
def processOrderItems (oid : Nat) : DB → List InsertOrderItem → DB × Option String
  | db, [] => (db, none)
  | db, it :: rest =>
    match processOrderItem db oid it with
    | (db1, some e) => (db1, some e)
    | (db1, none) => processOrderItems oid db1 rest

/-- `SupabaseStorage.createOrder` (storage.ts:561-606): insert the order row,
then process every item; the final state is returned alongside the outcome
because nothing is rolled back on error. -/
def createOrder (db : DB) (ord : InsertOrder) (items : List InsertOrderItem) :
    DB × Except String OrderRow :=
  let row : OrderRow :=
    { id := db.nextOrderId, customerWhatsapp := ord.customerWhatsapp,
      orderStatus := ord.orderStatus }
  let db1 : DB := { db with orders := db.orders ++ [row], nextOrderId := db.nextOrderId + 1 }
  match processOrderItems row.id db1 items with
  | (db2, some e) => (db2, Except.error e)
  | (db2, none) => (db2, Except.ok row)

/-- Stored stock of the product with the given id, if any. -/
def stockOf (db : DB) (pid : Nat) : Option Int :=
  (db.products.find? (fun p => p.id == pid)).map (fun p => p.stockQuantity)

/-- Total ordered quantity of the items referencing a given product. -/
def sumQty (items : List InsertOrderItem) (pid : Nat) : Int :=
  ((items.filter (fun it => it.productId == pid)).map (fun it => it.quantity)).sum

/-- The product ids of the database are pairwise distinct (primary key). -/
abbrev idsNodup (db : DB) : Prop := (db.products.map (fun p => p.id)).Nodup

/-- Some product row carries the given id. -/
def hasProduct (db : DB) (pid : Nat) : Bool :=
  db.products.any (fun p => p.id == pid)

/-- List-level version of `stockOf`. -/
def listStockOf (l : List ProductRow) (pid : Nat) : Option Int :=
  (l.find? (fun p => p.id == pid)).map (fun p => p.stockQuantity)

/-- The first step of `createOrder` (storage.ts:565-570): insert the order
row with the parsed status and advance the serial id. -/
def withNewOrder (db : DB) (ord : InsertOrder) : DB :=
  { db with
    orders := db.orders ++
      [{ id := db.nextOrderId, customerWhatsapp := ord.customerWhatsapp,
         orderStatus := ord.orderStatus }],
    nextOrderId := db.nextOrderId + 1 }

-- ======================================================================
-- Tags (storage.ts:488-550, routes.ts:376-401)
-- ======================================================================

/-- `SupabaseStorage.createTag` (storage.ts:488-510): first select ids of tags
whose name or slug equals the new one with `.maybeSingle()` (an error if more
than one row matches); if a row exists throw "already exists"; otherwise
insert. -/
def createTag (db : DB) (t : InsertTag) : DB × Except String TagRow :=
  match db.tags.filter (fun x => x.name == t.name || x.slug == t.slug) with
  | [] =>
    let row : TagRow := { id := db.nextTagId, name := t.name, slug := t.slug }
    ({ db with tags := db.tags ++ [row], nextTagId := db.nextTagId + 1 }, Except.ok row)
  | [_] => (db, Except.error "Tag with same name or slug already exists")
  | _ => (db, Except.error "Results contain 2 rows, but maybeSingle requires 0 or 1 row")

/-- JavaScript truthiness of an optional string (`partial.name ||
partial.slug` and the ternaries of storage.ts:514-523). -/
def truthy (o : Option String) : Bool :=
  match o with
  | some s => !s.data.isEmpty
  | none => false

/-- The duplicate filter of `updateTag` (storage.ts:515-527): a different id
whose name matches a provided name or whose slug matches a provided slug
(absent fields contribute no criterion). -/
def tagDupMatch (p : TagPatch) (id : Nat) (x : TagRow) : Bool :=
  x.id != id &&
    ((truthy p.name && x.name == p.name.getD "")
      || (truthy p.slug && x.slug == p.slug.getD ""))

/-- The update-and-reselect tail of `updateTag` (storage.ts:534-549):
`update(name, slug).eq("id", id).select().single()`; fields that are
`undefined` are stripped from the payload, and `.single()` errors unless
exactly one row matched. -/
def updateTagApply (db : DB) (id : Nat) (p : TagPatch) : DB × Except String TagRow :=
  let tags1 := db.tags.map (fun x =>
    if x.id == id then { x with name := p.name.getD x.name, slug := p.slug.getD x.slug }
    else x)
  let db1 := { db with tags := tags1 }
  match tags1.filter (fun x => x.id == id) with
  | [row] => (db1, Except.ok row)
  | _ => (db1, Except.error "JSON object requested, multiple (or no) rows returned")

/-- `SupabaseStorage.updateTag` (storage.ts:512-550): when a name or slug is
provided, first look for a colliding other tag with `.maybeSingle()` and throw
on a hit (or on a multi-row maybeSingle error); then apply the update. -/
def updateTag (db : DB) (id : Nat) (p : TagPatch) : DB × Except String TagRow :=
  if truthy p.name || truthy p.slug then
    match db.tags.filter (tagDupMatch p id) with
    | [] => updateTagApply db id p
    | [_] => (db, Except.error "Tag with same name or slug already exists")
    | _ => (db, Except.error "Results contain 2 rows, but maybeSingle requires 0 or 1 row")
  else updateTagApply db id p

/-- `POST /api/tags` handler (routes.ts:376-386): parse, create; every thrown
error is answered with status 500 (this handler has no 409 mapping). -/
def postTagsRoute (db : DB) (hasUser : Bool) (body : TagReq) : DB × Nat :=
  if !hasUser then (db, 403)
  else
    match parseInsertTag body with
    | Except.error _ => (db, 400)
    | Except.ok t =>
      match createTag db t with
      | (db1, Except.ok _) => (db1, 201)
      | (db1, Except.error _) => (db1, 500)

/-- `PATCH /api/tags/:id` handler (routes.ts:388-401): parse the partial body,
update; every thrown error is answered with status 500 (no 409 mapping). -/
def patchTagsRoute (db : DB) (hasUser : Bool) (id : Nat) (body : TagReq) : DB × Nat :=
  if !hasUser then (db, 403)
  else
    match parseTagPatch body with
    | Except.error _ => (db, 400)
    | Except.ok p =>
      match updateTag db id p with
      | (db1, Except.ok _) => (db1, 200)
      | (db1, Except.error _) => (db1, 500)

-- ======================================================================
-- Categories (storage.ts:428-474, routes.ts:96-105 and 176-185)
-- ======================================================================

/-- Modelled from the spec: the managed database's DELETE on `categories`
(the table constraints are not in src).  Per spec sections 7 and 9,
`Product.categoryId` is a weak reference with no enforced referential
integrity — "a product referencing a deleted category is left with a dangling
weak reference" — so the delete reports no error regardless of member
products; per section 3, deleting either endpoint of a CategoryTag removes
the link. -/
def dbDeleteCategory (db : DB) (id : Nat) : DB × Option String :=
  ({ db with
      categories := db.categories.filter (fun c => c.id != id),
      categoryTags := db.categoryTags.filter (fun ct => ct.fst != id) }, none)

/-- `SupabaseStorage.deleteCategory` (storage.ts:428-432): issue the delete,
throw on error, and return `true` unconditionally — the affected row count is
never inspected. -/
def deleteCategory (db : DB) (id : Nat) : DB × Except String Bool :=
  match dbDeleteCategory db id with
  | (db1, some e) => (db1, Except.error e)
  | (db1, none) => (db1, Except.ok true)

/-- `DELETE /api/categories/:id` handler (routes.ts:176-185): 403 without a
user, 404 when `deleteCategory` returns false, else 204. -/
def deleteCategoryRoute (db : DB) (hasUser : Bool) (id : Nat) : DB × Nat :=
  if !hasUser then (db, 403)
  else
    match deleteCategory db id with
    | (db1, Except.error _) => (db1, 500)
    | (db1, Except.ok ok) => if !ok then (db1, 404) else (db1, 204)

/-- `SupabaseStorage.removeCategoryTag` (storage.ts:467-474): delete every
category_tags row of the category; no other table is touched. -/
def removeCategoryTag (db : DB) (categoryId : Nat) : DB × Bool :=
  ({ db with categoryTags := db.categoryTags.filter (fun ct => ct.fst != categoryId) }, true)

/-- `DELETE /api/category-tags/:categoryId` handler (routes.ts:96-105). -/
def removeCategoryTagRoute (db : DB) (hasUser : Bool) (categoryId : Nat) : DB × Nat :=
  if !hasUser then (db, 403)
  else ((removeCategoryTag db categoryId).fst, 204)

-- ======================================================================
-- Tag links (storage.ts:336-348 and 454-465)
-- ======================================================================

/-- Modelled from the spec: insertion into a join table whose pair of foreign
keys is unique (spec section 3, "unique pair (no duplicate link)"); inserting
an existing pair reports Postgres's duplicate-key error. -/
def dbInsertLink (links : List (Nat × Nat)) (l : Nat × Nat) :
    List (Nat × Nat) × Option String :=
  if links.contains l then (links, some "duplicate key value violates unique constraint")
  else (links ++ [l], none)

/-- `SupabaseStorage.addProductTag` (storage.ts:336-348): insert the pair and
swallow any error whose message contains "duplicate key". -/
def addProductTag (db : DB) (productId tagId : Nat) : DB × Except String Unit :=
  match dbInsertLink db.productTags (productId, tagId) with
  | (links, some e) =>
    if hasSub e "duplicate key" then ({ db with productTags := links }, Except.ok ())
    else ({ db with productTags := links }, Except.error e)
  | (links, none) => ({ db with productTags := links }, Except.ok ())

/-- `SupabaseStorage.addCategoryTag` (storage.ts:454-465): insert the pair and
swallow any error whose message contains "duplicate key". -/
def addCategoryTag (db : DB) (categoryId tagId : Nat) : DB × Except String Unit :=
  match dbInsertLink db.categoryTags (categoryId, tagId) with
  | (links, some e) =>
    if hasSub e "duplicate key" then ({ db with categoryTags := links }, Except.ok ())
    else ({ db with categoryTags := links }, Except.error e)
  | (links, none) => ({ db with categoryTags := links }, Except.ok ())

-- ======================================================================
-- Session gate (auth.ts:57-93) and route-level user checks (routes.ts)
-- ======================================================================

/-- HTTP methods used by the API surface. -/
inductive Method
  | GET
  | POST
  | PATCH
  | DELETE
deriving Repr, DecidableEq

/-- The mount paths of the auth middleware (auth.ts:58-64). -/
def gateMounts : List String :=
  ["/api/categories", "/api/products", "/api/orders", "/api/tags", "/api/settings"]

/-- Express mount matching: the mount string is a prefix of the request path
and ends at a path-segment boundary. -/
def mountMatches (m path : String) : Bool :=
  strStarts path m &&
    ((strDrop path m.length).data.isEmpty || strStarts (strDrop path m.length) "/")

/-- The first mount of the middleware that matches the request path. -/
def findMount (path : String) : Option String :=
  gateMounts.find? (fun m => mountMatches m path)

/-- Express strips the matched mount from `req.path` inside a mounted
middleware: for a request to /api/orders the middleware sees "/". -/
def mountedReqPath (m path : String) : String :=
  let r := strDrop path m.length
  if r.data.isEmpty then "/" else r

/-- Outcome of the middleware for one request. -/
inductive GateResult
  | next (userAttached : Bool)
  | reject (status : Nat)
deriving Repr, DecidableEq

/-- The session-gate middleware (auth.ts:65-92): on a mounted path, a GET
whose (mount-stripped) `req.path` does not contain "/api/orders" passes
through without a user; otherwise a missing or invalid session token is
rejected with 401, and a valid one attaches the user. `sessionValid` stands
for "a token is present and the identity provider validates it". -/
def sessionGate (method : Method) (path : String) (sessionValid : Bool) : GateResult :=
  match findMount path with
  | none => GateResult.next false
  | some m =>
    if method == Method.GET && !(hasSub (mountedReqPath m path) "/api/orders") then
      GateResult.next false
    else if !sessionValid then GateResult.reject 401
    else GateResult.next true

/-- Which route handlers of routes.ts start with `if (!req.user) return
res.sendStatus(403)`, keyed by method and path family, in registration
order.  The GET /api/orders check is commented out in the source
(routes.ts:290), and POST /api/orders has no check. -/
def routeChecksUser (method : Method) (path : String) : Bool :=
  if strStarts path "/api/product-tags" then method != Method.GET
  else if strStarts path "/api/category-tags" then method != Method.GET
  else if strStarts path "/api/categories" then method != Method.GET
  else if strStarts path "/api/products" then method != Method.GET
  else if strStarts path "/api/orders" then method == Method.PATCH || method == Method.DELETE
  else if strStarts path "/api/tags" then method != Method.GET
  else if strStarts path "/api/settings" then method != Method.GET
  else false

/-- Authorization outcome of one request after middleware and the handler's
own user check. -/
inductive ServerOutcome
  | unauthorized (status : Nat)
  | handled
deriving Repr, DecidableEq

/-- Compose the session gate with the handler-level user check: the
middleware may reject with 401; a handler that checks `req.user` rejects with
403 when no user was attached; otherwise the request is handled. -/
def serveRequest (method : Method) (path : String) (sessionValid : Bool) : ServerOutcome :=
  match sessionGate method path sessionValid with
  | GateResult.reject s => ServerOutcome.unauthorized s
  | GateResult.next user =>
    if routeChecksUser method path && !user then ServerOutcome.unauthorized 403
    else ServerOutcome.handled

-- ======================================================================
-- Concrete states and inputs used by witnesses and counterexamples
-- ======================================================================

/-- Whether an `Except` result is an error. -/
def isErrB {α : Type} (r : Except String α) : Bool :=
  match r with
  | Except.error _ => true
  | Except.ok _ => false

/-- A small concrete database: category 1 "Shoes" with tag 1 "Sale" linked,
product 1 "Sneaker" (stock 10) in category 1 carrying tag 1, and product 2
"Boot" (stock 5) in no category. -/
def demoDb : DB :=
  { products :=
      [{ id := 1, name := "Sneaker", price := 50, stockQuantity := 10, categoryId := some 1 },
       { id := 2, name := "Boot", price := 80, stockQuantity := 5, categoryId := none }],
    categories := [{ id := 1, name := "Shoes", slug := "shoes" }],
    tags := [{ id := 1, name := "Sale", slug := "sale" }],
    productTags := [(1, 1)],
    categoryTags := [(1, 1)],
    orders := [],
    orderItems := [],
    nextOrderId := 1,
    nextOrderItemId := 1,
    nextTagId := 2 }

/-- A valid two-item order submission against `demoDb`. -/
def demoItems : List InsertOrderItem :=
  [{ orderId := 0, productId := 1, quantity := 3, price := 50 },
   { orderId := 0, productId := 2, quantity := 1, price := 80 }]

/-- An order submission whose second item references the nonexistent
product 99. -/
def missingItems : List InsertOrderItem :=
  [{ orderId := 0, productId := 1, quantity := 2, price := 50 },
   { orderId := 0, productId := 99, quantity := 1, price := 10 }]

/-- A parsed order header with the default status. -/
def demoOrder : InsertOrder := { customerWhatsapp := "9771234567", orderStatus := "New" }

/-- A single item ordering quantity 8 of product 2, whose stock in `demoDb`
is only 5. -/
def bigItem : InsertOrderItem := { orderId := 0, productId := 2, quantity := 8, price := 80 }

-- ======================================================================
-- Theorems
-- ======================================================================

/-- Helper: the duplicate-key message produced by the unique-pair constraint
is swallowed by the storage layer's error filter. -/
theorem dupKeyMsg_hasSub :
    hasSub "duplicate key value violates unique constraint" "duplicate key" = true := by
  decide

/-- C3: at the failing input.  Without a session, a GET to /api/orders is
handled rather than rejected: inside the mounted middleware Express strips
the mount from `req.path`, so `req.path.includes("/api/orders")` is false and
the public-GET branch fires (and the handler's own check is commented out).
All other parts of the claimed policy hold: non-GET requests on the five
mounted endpoint families are rejected with 401 without a valid session, and
GETs to products/categories/tags/settings are public. -/
theorem ordersGet_bypasses_sessionGate :
    serveRequest Method.GET "/api/orders" false = ServerOutcome.handled ∧
    serveRequest Method.POST "/api/orders" false = ServerOutcome.unauthorized 401 ∧
    serveRequest Method.PATCH "/api/orders" false = ServerOutcome.unauthorized 401 ∧
    serveRequest Method.DELETE "/api/orders" false = ServerOutcome.unauthorized 401 ∧
    serveRequest Method.GET "/api/products" false = ServerOutcome.handled ∧
    serveRequest Method.POST "/api/products" false = ServerOutcome.unauthorized 401 ∧
    serveRequest Method.PATCH "/api/products" false = ServerOutcome.unauthorized 401 ∧
    serveRequest Method.DELETE "/api/products" false = ServerOutcome.unauthorized 401 ∧
    serveRequest Method.GET "/api/categories" false = ServerOutcome.handled ∧
    serveRequest Method.POST "/api/categories" false = ServerOutcome.unauthorized 401 ∧
    serveRequest Method.GET "/api/tags" false = ServerOutcome.handled ∧
    serveRequest Method.PATCH "/api/tags" false = ServerOutcome.unauthorized 401 ∧
    serveRequest Method.GET "/api/settings" false = ServerOutcome.handled ∧
    serveRequest Method.PATCH "/api/settings" false = ServerOutcome.unauthorized 401 := by
  decide

/-- C7: removing a category's tag links touches only the categoryTags
relation: productTags (including links previously inherited onto member
products) and products are unchanged, exactly the rows of that category are
removed, and the handler responds 204. -/
theorem removeCategoryTag_keeps_productTags (db : DB) (cid : Nat) :
    (removeCategoryTag db cid).fst.productTags = db.productTags ∧
    (removeCategoryTag db cid).fst.products = db.products ∧
    (removeCategoryTag db cid).fst.categoryTags
      = db.categoryTags.filter (fun ct => ct.fst != cid) ∧
    removeCategoryTagRoute db true cid = ((removeCategoryTag db cid).fst, 204) := by
  refine ⟨rfl, rfl, rfl, ?_⟩
  simp [removeCategoryTagRoute]

/-- C4 counterexample: in `demoDb` category 1 owns product 1, yet
`deleteCategory` reports success and the DELETE handler responds 204 — the
claim that such a delete fails is false on the code. -/
theorem deleteCategory_nonempty_cex :
    demoDb.products.any (fun p => p.categoryId == some 1) = true ∧
    (deleteCategory demoDb 1).snd = Except.ok true ∧
    (deleteCategoryRoute demoDb true 1).snd = 204 := by
  decide

/-- C4 amended: `deleteCategory` succeeds for every id regardless of member
products (which keep their dangling categoryId); the category rows and its
CategoryTag links are removed and the handler responds 204. -/
theorem deleteCategory_ignores_products (db : DB) (id : Nat) :
    deleteCategory db id =
      ({ db with
          categories := db.categories.filter (fun c => c.id != id),
          categoryTags := db.categoryTags.filter (fun ct => ct.fst != id) },
        Except.ok true) ∧
    (deleteCategoryRoute db true id).snd = 204 ∧
    (deleteCategoryRoute db true id).fst.products = db.products := by
  refine ⟨rfl, ?_, ?_⟩ <;> simp [deleteCategoryRoute, deleteCategory, dbDeleteCategory]

/-- C10: `deleteCategory` returns true whenever the delete call reports no
error — in particular for an id matching no category row — so the handler's
404 branch cannot fire and deleting a nonexistent category responds 204. -/
theorem deleteCategory_no_404 (db : DB) (id : Nat)
    (habsent : db.categories.all (fun c => c.id != id) = true) :
    (deleteCategory db id).snd = Except.ok true ∧
    deleteCategoryRoute db true id = ((deleteCategory db id).fst, 204) := by
  refine ⟨rfl, ?_⟩
  simp [deleteCategoryRoute, deleteCategory, dbDeleteCategory]

/-- C10 witness: id 99 matches no category of `demoDb`, and deleting it
reports success with a 204 response. -/
theorem deleteCategory_no_404_witness :
    (demoDb.categories.all (fun c => c.id != 99) = true) ∧
    ((deleteCategory demoDb 99).snd = Except.ok true ∧
      deleteCategoryRoute demoDb true 99 = ((deleteCategory demoDb 99).fst, 204)) :=
  ⟨by decide, deleteCategory_no_404 demoDb 99 (by decide)⟩

/-- C8: for every pair, re-adding an existing Product-Tag link is an
errorless no-op (independently of the category relation), re-adding an
existing Category-Tag link likewise (independently of the product relation),
and — for every database, whether the pair was present or fresh — adding the
same link twice has the same effect on the link relation as adding it once,
with no error on the second add. -/
theorem addLink_duplicate_noop (db : DB) (p t : Nat) :
    ((p, t) ∈ db.productTags → addProductTag db p t = (db, Except.ok ())) ∧
    ((p, t) ∈ db.categoryTags → addCategoryTag db p t = (db, Except.ok ())) ∧
    addProductTag (addProductTag db p t).fst p t
      = ((addProductTag db p t).fst, Except.ok ()) ∧
    addCategoryTag (addCategoryTag db p t).fst p t
      = ((addCategoryTag db p t).fst, Except.ok ()) := by
  have noopP : ∀ d : DB, (p, t) ∈ d.productTags → addProductTag d p t = (d, Except.ok ()) := by
    intro d hd
    simp [addProductTag, dbInsertLink, hd, dupKeyMsg_hasSub]
  have noopC : ∀ d : DB, (p, t) ∈ d.categoryTags → addCategoryTag d p t = (d, Except.ok ()) := by
    intro d hd
    simp [addCategoryTag, dbInsertLink, hd, dupKeyMsg_hasSub]
  have memP : (p, t) ∈ (addProductTag db p t).fst.productTags := by
    by_cases hd : (p, t) ∈ db.productTags
    · rw [noopP db hd]
      exact hd
    · simp [addProductTag, dbInsertLink, hd]
  have memC : (p, t) ∈ (addCategoryTag db p t).fst.categoryTags := by
    by_cases hd : (p, t) ∈ db.categoryTags
    · rw [noopC db hd]
      exact hd
    · simp [addCategoryTag, dbInsertLink, hd]
  exact ⟨noopP db, noopC db, noopP _ memP, noopC _ memC⟩

/-- C8 witness: in `demoDb` the pair (1, 1) is linked in the product relation
(re-adding it there is an errorless no-op) and in the category relation
(likewise); and for the fresh pair (2, 1), adding it twice leaves the state
of the first add unchanged with no error. -/
theorem addLink_duplicate_noop_witness :
    ((1, 1) ∈ demoDb.productTags ∧ addProductTag demoDb 1 1 = (demoDb, Except.ok ())) ∧
    ((1, 1) ∈ demoDb.categoryTags ∧ addCategoryTag demoDb 1 1 = (demoDb, Except.ok ())) ∧
    addProductTag (addProductTag demoDb 2 1).fst 2 1
      = ((addProductTag demoDb 2 1).fst, Except.ok ()) ∧
    addCategoryTag (addCategoryTag demoDb 2 1).fst 2 1
      = ((addCategoryTag demoDb 2 1).fst, Except.ok ()) :=
  ⟨⟨by decide, (addLink_duplicate_noop demoDb 1 1).1 (by decide)⟩,
    ⟨by decide, (addLink_duplicate_noop demoDb 1 1).2.1 (by decide)⟩,
    (addLink_duplicate_noop demoDb 2 1).2.2.1,
    (addLink_duplicate_noop demoDb 2 1).2.2.2⟩

/-- C5 counterexample: creating a tag whose name equals the existing tag
"Sale" is answered with status 500, not 409 — the tags handlers have no
ConflictError mapping (the database state is unchanged, as claimed). -/
theorem tags_duplicate_responds_500_cex :
    postTagsRoute demoDb true { name := some "Sale", slug := some "sale-2" }
      = (demoDb, 500) ∧
    (postTagsRoute demoDb true { name := some "Sale", slug := some "sale-2" }).snd ≠ 409 := by
  decide

/-- C6 counterexample: an order submission that explicitly supplies
orderStatus "Processing" is accepted by the schema (the zod default only
applies to an absent field) and `createOrder` inserts and returns the order
with status "Processing", not "New". -/
theorem orderStatus_override_cex :
    parseInsertOrder { customerWhatsapp := some "9771234567", orderStatus := some "Processing" }
      = Except.ok { customerWhatsapp := "9771234567", orderStatus := "Processing" } ∧
    (createOrder demoDb { customerWhatsapp := "9771234567", orderStatus := "Processing" } []).snd
      = Except.ok { id := 1, customerWhatsapp := "9771234567", orderStatus := "Processing" } ∧
    ({ id := 1, customerWhatsapp := "9771234567", orderStatus := "Processing" } : OrderRow).orderStatus
      ≠ "New" := by
  decide

/-- C2 counterexample: submitting `missingItems` (second item references the
nonexistent product 99) against `demoDb` makes the whole `createOrder` call
fail — the item is not dropped with the order succeeding — and nothing is
rolled back: the order row and both OrderItem rows (including the failing
item's, inserted before the product lookup) remain, and product 1 keeps its
applied decrement 10 - 2 = 8. -/
theorem createOrder_missing_product_cex :
    isErrB (createOrder demoDb demoOrder missingItems).snd = true ∧
    (createOrder demoDb demoOrder missingItems).fst.orders.length = 1 ∧
    (createOrder demoDb demoOrder missingItems).fst.orderItems.length = 2 ∧
    stockOf (createOrder demoDb demoOrder missingItems).fst 1 = some 8 := by
  decide

-- ======================================================================
-- Supporting lemmas about the order flow
-- ======================================================================

/-- Unfolding `createOrder` through its let bindings. -/
theorem createOrder_eq (db : DB) (ord : InsertOrder) (items : List InsertOrderItem) :
    createOrder db ord items =
      (match processOrderItems db.nextOrderId (withNewOrder db ord) items with
        | (db2, some e) => (db2, Except.error e)
        | (db2, none) =>
          (db2, Except.ok { id := db.nextOrderId, customerWhatsapp := ord.customerWhatsapp,
                            orderStatus := ord.orderStatus })) := rfl

/-- Unfolding one step of the item loop. -/
theorem processOrderItems_cons (oid : Nat) (db : DB) (it : InsertOrderItem)
    (rest : List InsertOrderItem) :
    processOrderItems oid db (it :: rest) =
      (match processOrderItem db oid it with
        | (db1, some e) => (db1, some e)
        | (db1, none) => processOrderItems oid db1 rest) := rfl

theorem sumQty_nil (pid : Nat) : sumQty [] pid = 0 := rfl

theorem sumQty_cons (it : InsertOrderItem) (rest : List InsertOrderItem) (pid : Nat) :
    sumQty (it :: rest) pid
      = (if it.productId = pid then it.quantity else 0) + sumQty rest pid := by
  by_cases h : it.productId = pid <;> simp [sumQty, List.filter_cons, h]

theorem setStock_ids (l : List ProductRow) (pid : Nat) (v : Int) :
    (setStock l pid v).map (fun p => p.id) = l.map (fun p => p.id) := by
  unfold setStock
  rw [List.map_map]
  apply List.map_congr_left
  intro p _
  by_cases h : p.id = pid <;> simp [Function.comp, h]

theorem any_id_map (l : List ProductRow) (pid : Nat) :
    l.any (fun p => p.id == pid) = (l.map (fun p => p.id)).any (fun i => i == pid) := by
  induction l with
  | nil => rfl
  | cons p rest ih => simp [List.any_cons, ih]

/-- `hasProduct` only depends on the list of product ids. -/
theorem hasProduct_congr (db1 db2 : DB)
    (h : db1.products.map (fun p => p.id) = db2.products.map (fun p => p.id)) (pid : Nat) :
    hasProduct db1 pid = hasProduct db2 pid := by
  unfold hasProduct
  rw [any_id_map, any_id_map, h]

theorem listStockOf_setStock : ∀ (l : List ProductRow) (pid : Nat) (v : Int) (pid' : Nat),
    listStockOf (setStock l pid v) pid' =
      if pid' = pid then (listStockOf l pid').map (fun _ => v) else listStockOf l pid'
  | [], pid, v, pid' => by
    by_cases h : pid' = pid <;> simp [listStockOf, setStock, h]
  | p :: rest, pid, v, pid' => by
    have ih := listStockOf_setStock rest pid v pid'
    by_cases h1 : p.id = pid'
    · by_cases h2 : pid' = pid
      · subst h2
        subst h1
        simp [listStockOf, setStock]
      · have h3 : ¬(p.id = pid) := fun hc => h2 (h1.symm.trans hc)
        simp [listStockOf, setStock, h1, h2, h3]
    · by_cases h2 : p.id = pid
      · by_cases h4 : pid' = pid
        · exact absurd (h2.trans h4.symm) h1
        · have h5 : ¬(pid = pid') := fun hc => h1 (h2.trans hc)
          simp only [listStockOf, setStock, List.map_cons] at ih ⊢
          rw [List.find?_cons_of_neg _ (by simp [h2, h5]),
            List.find?_cons_of_neg _ (by simp [h1])]
          simpa [h4] using ih
      · by_cases h4 : pid' = pid
        · simp only [listStockOf, setStock, List.map_cons] at ih ⊢
          rw [List.find?_cons_of_neg _ (by simp [h2, h1]),
            List.find?_cons_of_neg _ (by simp [h1])]
          simpa [h4] using ih
        · simp only [listStockOf, setStock, List.map_cons] at ih ⊢
          rw [List.find?_cons_of_neg _ (by simp [h2, h1]),
            List.find?_cons_of_neg _ (by simp [h1])]
          simpa [h4] using ih

theorem filter_eq_single : ∀ (l : List ProductRow) (pid : Nat),
    (l.map (fun p => p.id)).Nodup →
    l.any (fun p => p.id == pid) = true →
    ∃ q, l.filter (fun p => p.id == pid) = [q] ∧
      l.find? (fun p => p.id == pid) = some q ∧ q.id = pid
  | [], pid => by simp
  | p :: rest, pid => by
    intro hn he
    by_cases h : p.id = pid
    · refine ⟨p, ?_, ?_, h⟩
      · have hnotin : p.id ∉ rest.map (fun p => p.id) := (List.nodup_cons.mp hn).1
        have hrest : rest.filter (fun x => x.id == pid) = [] := by
          rw [List.filter_eq_nil_iff]
          intro x hx
          simp only [beq_iff_eq]
          intro hxeq
          exact hnotin (h ▸ hxeq ▸ List.mem_map_of_mem (fun p => p.id) hx)
        simp [List.filter_cons, h, hrest]
      · exact List.find?_cons_of_pos _ (by simp [h])
    · have hn' : (rest.map (fun p => p.id)).Nodup := (List.nodup_cons.mp hn).2
      have he' : rest.any (fun p => p.id == pid) = true := by
        simp only [List.any_cons] at he
        simpa [h] using he
      obtain ⟨q, hf, hfd, hq⟩ := filter_eq_single rest pid hn' he'
      refine ⟨q, ?_, ?_, hq⟩
      · simp [List.filter_cons, h, hf]
      · rw [List.find?_cons_of_neg _ (by simp [h])]
        exact hfd

theorem lookupStockSingle_ok (l : List ProductRow) (pid : Nat)
    (hn : (l.map (fun p => p.id)).Nodup)
    (he : l.any (fun p => p.id == pid) = true) :
    ∃ s, lookupStockSingle l pid = Except.ok s ∧ listStockOf l pid = some s := by
  obtain ⟨q, hf, hfd, _⟩ := filter_eq_single l pid hn he
  exact ⟨q.stockQuantity, by simp [lookupStockSingle, hf], by simp [listStockOf, hfd]⟩

theorem lookupStockSingle_missing (l : List ProductRow) (pid : Nat)
    (he : l.any (fun p => p.id == pid) = false) :
    lookupStockSingle l pid
      = Except.error "JSON object requested, multiple (or no) rows returned" := by
  have hnil : l.filter (fun p => p.id == pid) = [] := by
    rw [List.filter_eq_nil_iff]
    intro a ha
    exact List.any_eq_false.mp he a ha
  simp [lookupStockSingle, hnil]

theorem processOrderItem_eq_ok (db : DB) (oid : Nat) (it : InsertOrderItem) (s : Int)
    (h : lookupStockSingle db.products it.productId = Except.ok s) :
    processOrderItem db oid it =
      ({ insertOrderItemRow db oid it with
          products := setStock db.products it.productId (s - it.quantity) }, none) := by
  show (match lookupStockSingle (insertOrderItemRow db oid it).products it.productId with
        | Except.error e => (insertOrderItemRow db oid it, some e)
        | Except.ok q =>
          ({ insertOrderItemRow db oid it with
              products := setStock (insertOrderItemRow db oid it).products it.productId
                (q - it.quantity) }, none)) = _
  rw [show (insertOrderItemRow db oid it).products = db.products from rfl, h]

theorem processOrderItem_eq_err (db : DB) (oid : Nat) (it : InsertOrderItem) (e : String)
    (h : lookupStockSingle db.products it.productId = Except.error e) :
    processOrderItem db oid it = (insertOrderItemRow db oid it, some e) := by
  show (match lookupStockSingle (insertOrderItemRow db oid it).products it.productId with
        | Except.error e => (insertOrderItemRow db oid it, some e)
        | Except.ok q =>
          ({ insertOrderItemRow db oid it with
              products := setStock (insertOrderItemRow db oid it).products it.productId
                (q - it.quantity) }, none)) = _
  rw [show (insertOrderItemRow db oid it).products = db.products from rfl, h]

theorem processOrderItem_ok (db : DB) (oid : Nat) (it : InsertOrderItem)
    (hn : idsNodup db) (he : hasProduct db it.productId = true) :
    (processOrderItem db oid it).snd = none ∧
    (processOrderItem db oid it).fst.products.map (fun p => p.id)
      = db.products.map (fun p => p.id) ∧
    (processOrderItem db oid it).fst.orders = db.orders ∧
    (processOrderItem db oid it).fst.orderItems.length = db.orderItems.length + 1 ∧
    ∀ pid, stockOf (processOrderItem db oid it).fst pid
      = (stockOf db pid).map
          (fun q => q - (if it.productId = pid then it.quantity else 0)) := by
  obtain ⟨s, hlk, hls⟩ := lookupStockSingle_ok db.products it.productId hn he
  have heq := processOrderItem_eq_ok db oid it s hlk
  rw [heq]
  refine ⟨rfl, setStock_ids _ _ _, rfl, by simp [insertOrderItemRow], ?_⟩
  intro pid
  show listStockOf (setStock db.products it.productId (s - it.quantity)) pid
    = (listStockOf db.products pid).map
        (fun q => q - (if it.productId = pid then it.quantity else 0))
  rw [listStockOf_setStock]
  by_cases h : pid = it.productId
  · subst h
    simp [hls]
  · have h' : ¬(it.productId = pid) := fun hc => h hc.symm
    simp only [h, h', if_false]
    cases listStockOf db.products pid <;> simp

theorem processOrderItems_ok : ∀ (items : List InsertOrderItem) (db : DB) (oid : Nat),
    idsNodup db → (∀ it ∈ items, hasProduct db it.productId = true) →
    (processOrderItems oid db items).snd = none ∧
    (processOrderItems oid db items).fst.products.map (fun p => p.id)
      = db.products.map (fun p => p.id) ∧
    (processOrderItems oid db items).fst.orders = db.orders ∧
    (processOrderItems oid db items).fst.orderItems.length
      = db.orderItems.length + items.length ∧
    ∀ pid, stockOf (processOrderItems oid db items).fst pid
      = (stockOf db pid).map (fun q => q - sumQty items pid)
  | [], db, oid => by
    intro _ _
    refine ⟨rfl, rfl, rfl, rfl, ?_⟩
    intro pid
    show stockOf db pid = (stockOf db pid).map (fun q => q - sumQty [] pid)
    cases stockOf db pid <;> simp [sumQty]
  | it :: rest, db, oid => by
    intro hn he
    obtain ⟨h1, h2, h3, h4, h5⟩ := processOrderItem_ok db oid it hn (he it (by simp))
    have hpair : processOrderItem db oid it = ((processOrderItem db oid it).fst, none) := by
      rw [← h1]
    have hrw : processOrderItems oid db (it :: rest)
        = processOrderItems oid (processOrderItem db oid it).fst rest := by
      rw [processOrderItems_cons, hpair]
    have hn' : idsNodup (processOrderItem db oid it).fst := by
      show ((processOrderItem db oid it).fst.products.map (fun p => p.id)).Nodup
      rw [h2]
      exact hn
    have he' : ∀ x ∈ rest, hasProduct (processOrderItem db oid it).fst x.productId = true := by
      intro x hx
      rw [hasProduct_congr _ db h2]
      exact he x (by simp [hx])
    obtain ⟨g1, g2, g3, g4, g5⟩ :=
      processOrderItems_ok rest (processOrderItem db oid it).fst oid hn' he'
    rw [hrw]
    refine ⟨g1, ?_, ?_, ?_, ?_⟩
    · rw [g2, h2]
    · rw [g3, h3]
    · rw [g4, h4]
      simp [Nat.add_assoc, Nat.add_comm 1 rest.length]
    · intro pid
      rw [g5 pid, h5 pid, sumQty_cons]
      cases stockOf db pid with
      | none => simp
      | some a => simp [sub_sub]

theorem processOrderItem_orders_any (db : DB) (oid : Nat) (it : InsertOrderItem) :
    (processOrderItem db oid it).fst.orders = db.orders := by
  show (match lookupStockSingle (insertOrderItemRow db oid it).products it.productId with
        | Except.error e => (insertOrderItemRow db oid it, some e)
        | Except.ok q =>
          ({ insertOrderItemRow db oid it with
              products := setStock (insertOrderItemRow db oid it).products it.productId
                (q - it.quantity) }, none)).fst.orders = db.orders
  cases lookupStockSingle (insertOrderItemRow db oid it).products it.productId <;> rfl

theorem processOrderItems_orders : ∀ (items : List InsertOrderItem) (db : DB) (oid : Nat),
    (processOrderItems oid db items).fst.orders = db.orders
  | [], _, _ => rfl
  | it :: rest, db, oid => by
    rw [processOrderItems_cons]
    have hh := processOrderItem_orders_any db oid it
    cases hres : processOrderItem db oid it with
    | mk db1 e =>
      rw [hres] at hh
      cases e with
      | none =>
        have := processOrderItems_orders rest db1 oid
        simpa [this] using hh
      | some err => simpa using hh

/-- The order row inserted by `createOrder` is present in the final state
whether or not the item loop fails. -/
theorem createOrder_orders (db : DB) (ord : InsertOrder) (items : List InsertOrderItem) :
    (createOrder db ord items).fst.orders
      = db.orders ++ [{ id := db.nextOrderId, customerWhatsapp := ord.customerWhatsapp,
                        orderStatus := ord.orderStatus }] := by
  rw [createOrder_eq]
  have hh := processOrderItems_orders items (withNewOrder db ord) db.nextOrderId
  cases hres : processOrderItems db.nextOrderId (withNewOrder db ord) items with
  | mk db2 e =>
    rw [hres] at hh
    cases e <;> simpa [withNewOrder] using hh

/-- When `createOrder` succeeds, the returned order is exactly the inserted
row. -/
theorem createOrder_ok_row (db : DB) (ord : InsertOrder) (items : List InsertOrderItem)
    (o : OrderRow) (h : (createOrder db ord items).snd = Except.ok o) :
    o = { id := db.nextOrderId, customerWhatsapp := ord.customerWhatsapp,
          orderStatus := ord.orderStatus } := by
  rw [createOrder_eq] at h
  cases hres : processOrderItems db.nextOrderId (withNewOrder db ord) items with
  | mk db2 e =>
    rw [hres] at h
    cases e with
    | none => simpa using h.symm
    | some err => simp at h

/-- The shared engine for C1 and C9: a run whose items all reference existing
products succeeds, returns the inserted row, creates one OrderItem per item,
and decrements every product's stock by the total quantity of the items
referencing it. -/
theorem createOrder_run (db : DB) (ord : InsertOrder) (items : List InsertOrderItem)
    (hex : ∀ x ∈ items, hasProduct db x.productId = true) (hnd : idsNodup db) :
    (createOrder db ord items).snd
      = Except.ok { id := db.nextOrderId, customerWhatsapp := ord.customerWhatsapp,
                    orderStatus := ord.orderStatus } ∧
    (createOrder db ord items).fst.orderItems.length
      = db.orderItems.length + items.length ∧
    ∀ pid, stockOf (createOrder db ord items).fst pid
      = (stockOf db pid).map (fun q => q - sumQty items pid) := by
  have hn1 : idsNodup (withNewOrder db ord) := hnd
  have he1 : ∀ x ∈ items, hasProduct (withNewOrder db ord) x.productId = true := hex
  obtain ⟨g1, _, _, g4, g5⟩ :=
    processOrderItems_ok items (withNewOrder db ord) db.nextOrderId hn1 he1
  have hpair : processOrderItems db.nextOrderId (withNewOrder db ord) items
      = ((processOrderItems db.nextOrderId (withNewOrder db ord) items).fst, none) := by
    rw [← g1]
  rw [createOrder_eq, hpair]
  exact ⟨rfl, g4, g5⟩

/-- A run whose prefix is clean but whose next item references a missing
product: the failing item's OrderItem row is still inserted (the insert
precedes the product lookup), then the `.single()` error aborts the loop. -/
theorem processOrderItems_fail : ∀ (pre : List InsertOrderItem) (db : DB) (oid : Nat)
    (bad : InsertOrderItem) (post : List InsertOrderItem),
    idsNodup db → (∀ x ∈ pre, hasProduct db x.productId = true) →
    hasProduct db bad.productId = false →
    (∃ e, (processOrderItems oid db (pre ++ bad :: post)).snd = some e) ∧
    (processOrderItems oid db (pre ++ bad :: post)).fst.orders = db.orders ∧
    (processOrderItems oid db (pre ++ bad :: post)).fst.orderItems.length
      = db.orderItems.length + pre.length + 1 ∧
    ∀ pid, stockOf (processOrderItems oid db (pre ++ bad :: post)).fst pid
      = (stockOf db pid).map (fun q => q - sumQty pre pid)
  | [], db, oid, bad, post => by
    intro hn _ hbad
    have hlk : lookupStockSingle db.products bad.productId
        = Except.error "JSON object requested, multiple (or no) rows returned" :=
      lookupStockSingle_missing db.products bad.productId hbad
    have heq := processOrderItem_eq_err db oid bad _ hlk
    have hrw : processOrderItems oid db ([] ++ bad :: post)
        = (insertOrderItemRow db oid bad,
            some "JSON object requested, multiple (or no) rows returned") := by
      rw [List.nil_append, processOrderItems_cons, heq]
    rw [hrw]
    refine ⟨⟨_, rfl⟩, rfl, by simp [insertOrderItemRow], ?_⟩
    intro pid
    show stockOf db pid = (stockOf db pid).map (fun q => q - sumQty [] pid)
    cases stockOf db pid <;> simp [sumQty]
  | it :: pre, db, oid, bad, post => by
    intro hn he hbad
    obtain ⟨h1, h2, h3, h4, h5⟩ := processOrderItem_ok db oid it hn (he it (by simp))
    have hpair : processOrderItem db oid it = ((processOrderItem db oid it).fst, none) := by
      rw [← h1]
    have hrw : processOrderItems oid db ((it :: pre) ++ bad :: post)
        = processOrderItems oid (processOrderItem db oid it).fst (pre ++ bad :: post) := by
      rw [List.cons_append, processOrderItems_cons, hpair]
    have hn' : idsNodup (processOrderItem db oid it).fst := by
      show ((processOrderItem db oid it).fst.products.map (fun p => p.id)).Nodup
      rw [h2]
      exact hn
    have he' : ∀ x ∈ pre, hasProduct (processOrderItem db oid it).fst x.productId = true := by
      intro x hx
      rw [hasProduct_congr _ db h2]
      exact he x (by simp [hx])
    have hbad' : hasProduct (processOrderItem db oid it).fst bad.productId = false := by
      rw [hasProduct_congr _ db h2]
      exact hbad
    obtain ⟨g1, g3, g4, g5⟩ :=
      processOrderItems_fail pre (processOrderItem db oid it).fst oid bad post hn' he' hbad'
    rw [hrw]
    refine ⟨g1, ?_, ?_, ?_⟩
    · rw [g3, h3]
    · rw [g4, h4]
      simp [List.length_cons]
      omega
    · intro pid
      rw [g5 pid, h5 pid, sumQty_cons]
      cases stockOf db pid with
      | none => simp
      | some a => simp [sub_sub]

-- ======================================================================
-- Main claim theorems for the order flow
-- ======================================================================

/-- C1: a valid order submission with N items (non-empty, quantities at least
1, prices non-negative, every referenced product existing, distinct product
ids, run sequentially) succeeds, creates exactly N OrderItem rows, and every
product's stored stock decreases by exactly the total quantity of the items
referencing it (for an item's own product, by that item's quantity). -/
theorem createOrder_valid_items (db : DB) (ord : InsertOrder)
    (items : List InsertOrderItem)
    (hne : items ≠ [])
    (hval : ∀ it ∈ items, 1 ≤ it.quantity ∧ 0 ≤ it.price)
    (hex : ∀ it ∈ items, hasProduct db it.productId = true)
    (hnd : idsNodup db) :
    (createOrder db ord items).snd
      = Except.ok { id := db.nextOrderId, customerWhatsapp := ord.customerWhatsapp,
                    orderStatus := ord.orderStatus } ∧
    (createOrder db ord items).fst.orderItems.length
      = db.orderItems.length + items.length ∧
    ∀ pid, stockOf (createOrder db ord items).fst pid
      = (stockOf db pid).map (fun q => q - sumQty items pid) :=
  createOrder_run db ord items hex hnd

/-- C1 witness: the two-item submission `demoItems` against `demoDb` creates
2 OrderItem rows and decrements product 1 from 10 to 7 (quantity 3). -/
theorem createOrder_valid_items_witness :
    (demoItems ≠ [] ∧ (∀ it ∈ demoItems, 1 ≤ it.quantity ∧ 0 ≤ it.price) ∧
      (∀ it ∈ demoItems, hasProduct demoDb it.productId = true) ∧ idsNodup demoDb) ∧
    (createOrder demoDb demoOrder demoItems).snd
      = Except.ok { id := 1, customerWhatsapp := "9771234567", orderStatus := "New" } ∧
    (createOrder demoDb demoOrder demoItems).fst.orderItems.length = 2 ∧
    stockOf (createOrder demoDb demoOrder demoItems).fst 1
      = (stockOf demoDb 1).map (fun q => q - sumQty demoItems 1) ∧
    stockOf (createOrder demoDb demoOrder demoItems).fst 1 = some 7 :=
  ⟨⟨by decide, by decide, by decide, by decide⟩,
    (createOrder_valid_items demoDb demoOrder demoItems (by decide) (by decide)
      (by decide) (by decide)).1,
    (createOrder_valid_items demoDb demoOrder demoItems (by decide) (by decide)
      (by decide) (by decide)).2.1,
    (createOrder_valid_items demoDb demoOrder demoItems (by decide) (by decide)
      (by decide) (by decide)).2.2 1,
    by decide⟩

/-- C9: `createOrder` never compares the ordered quantity against the
available stock: when the referenced product exists, the new stored stock is
exactly the previous value minus the item quantity, and if the quantity
exceeds the current stock the stored stock becomes negative. -/
theorem createOrder_no_stock_check (db : DB) (ord : InsertOrder) (it : InsertOrderItem)
    (hex : hasProduct db it.productId = true) (hnd : idsNodup db) :
    isErrB (createOrder db ord [it]).snd = false ∧
    stockOf (createOrder db ord [it]).fst it.productId
      = (stockOf db it.productId).map (fun q => q - it.quantity) ∧
    ∀ q, stockOf db it.productId = some q → q < it.quantity →
      stockOf (createOrder db ord [it]).fst it.productId = some (q - it.quantity) ∧
        q - it.quantity < 0 := by
  obtain ⟨r1, _, r3⟩ := createOrder_run db ord [it]
    (by intro x hx; rw [List.mem_singleton] at hx; rw [hx]; exact hex) hnd
  have hsum : sumQty [it] it.productId = it.quantity := by
    simp [sumQty]
  have hstock : stockOf (createOrder db ord [it]).fst it.productId
      = (stockOf db it.productId).map (fun q => q - it.quantity) := by
    rw [r3 it.productId, hsum]
  refine ⟨by rw [r1]; rfl, hstock, ?_⟩
  intro q hq hlt
  rw [hstock, hq]
  exact ⟨rfl, by omega⟩

/-- C9 witness: ordering quantity 8 of product 2 (stock 5) drives the stored
stock to -3. -/
theorem createOrder_no_stock_check_witness :
    (hasProduct demoDb 2 = true ∧ idsNodup demoDb ∧ stockOf demoDb 2 = some 5 ∧
      (5 : Int) < 8) ∧
    (stockOf (createOrder demoDb demoOrder [bigItem]).fst 2 = some (5 - 8) ∧
      (5 : Int) - 8 < 0) ∧
    stockOf (createOrder demoDb demoOrder [bigItem]).fst 2 = some (-3) :=
  ⟨⟨by decide, by decide, by decide, by decide⟩,
    (createOrder_no_stock_check demoDb demoOrder bigItem (by decide) (by decide)).2.2
      5 (by decide) (by decide),
    by decide⟩

/-- C2 amended: when the item at position `pre.length` references a missing
product, the `.single()` lookup error makes the whole `createOrder` call fail
(rather than dropping the item and succeeding), the failing item's OrderItem
row having already been inserted; and nothing is rolled back: the order row,
the OrderItem rows of the clean prefix plus the failing item's, and the stock
decrements of the prefix all remain. -/
theorem createOrder_missing_product (db : DB) (ord : InsertOrder)
    (pre : List InsertOrderItem) (bad : InsertOrderItem) (post : List InsertOrderItem)
    (hexPre : ∀ x ∈ pre, hasProduct db x.productId = true)
    (hbad : hasProduct db bad.productId = false)
    (hnd : idsNodup db) :
    isErrB (createOrder db ord (pre ++ bad :: post)).snd = true ∧
    (createOrder db ord (pre ++ bad :: post)).fst.orders
      = db.orders ++ [{ id := db.nextOrderId, customerWhatsapp := ord.customerWhatsapp,
                        orderStatus := ord.orderStatus }] ∧
    (createOrder db ord (pre ++ bad :: post)).fst.orderItems.length
      = db.orderItems.length + pre.length + 1 ∧
    ∀ pid, stockOf (createOrder db ord (pre ++ bad :: post)).fst pid
      = (stockOf db pid).map (fun q => q - sumQty pre pid) := by
  have hn1 : idsNodup (withNewOrder db ord) := hnd
  have he1 : ∀ x ∈ pre, hasProduct (withNewOrder db ord) x.productId = true := hexPre
  have hbad1 : hasProduct (withNewOrder db ord) bad.productId = false := hbad
  obtain ⟨⟨e, g1⟩, _, g4, g5⟩ :=
    processOrderItems_fail pre (withNewOrder db ord) db.nextOrderId bad post hn1 he1 hbad1
  have hpair : processOrderItems db.nextOrderId (withNewOrder db ord) (pre ++ bad :: post)
      = ((processOrderItems db.nextOrderId (withNewOrder db ord) (pre ++ bad :: post)).fst,
          some e) := by
    rw [← g1]
  refine ⟨?_, createOrder_orders db ord (pre ++ bad :: post), ?_, ?_⟩
  · rw [createOrder_eq, hpair]
    rfl
  · rw [createOrder_eq, hpair]
    exact g4
  · intro pid
    rw [createOrder_eq, hpair]
    exact g5 pid

/-- C2 witness: the concrete run of `missingItems` (clean first item, second
item referencing missing product 99) errors, keeps both inserted OrderItem
rows, and keeps the first item's stock decrement. -/
theorem createOrder_missing_product_witness :
    (hasProduct demoDb 99 = false ∧ idsNodup demoDb) ∧
    isErrB (createOrder demoDb demoOrder missingItems).snd = true ∧
    (createOrder demoDb demoOrder missingItems).fst.orderItems.length = 2 ∧
    stockOf (createOrder demoDb demoOrder missingItems).fst 1
      = (stockOf demoDb 1).map
          (fun q => q - sumQty [{ orderId := 0, productId := 1, quantity := 2, price := 50 }] 1) :=
  ⟨⟨by decide, by decide⟩,
    (createOrder_missing_product demoDb demoOrder
      [{ orderId := 0, productId := 1, quantity := 2, price := 50 }]
      { orderId := 0, productId := 99, quantity := 1, price := 10 } []
      (by decide) (by decide) (by decide)).1,
    (createOrder_missing_product demoDb demoOrder
      [{ orderId := 0, productId := 1, quantity := 2, price := 50 }]
      { orderId := 0, productId := 99, quantity := 1, price := 10 } []
      (by decide) (by decide) (by decide)).2.2.1,
    (createOrder_missing_product demoDb demoOrder
      [{ orderId := 0, productId := 1, quantity := 2, price := 50 }]
      { orderId := 0, productId := 99, quantity := 1, price := 10 } []
      (by decide) (by decide) (by decide)).2.2.2 1⟩

/-- C6 amended: for every order submission that does not supply an
orderStatus, the zod default makes the parsed status "New", the inserted
Order row has status "New", and a successfully returned order has status
"New".  (A submission that does supply a status overrides the default — see
the counterexample.) -/
theorem createOrder_status_default (req : OrderReq) (w : InsertOrder) (db : DB)
    (items : List InsertOrderItem)
    (hs : req.orderStatus = none)
    (hp : parseInsertOrder req = Except.ok w) :
    w.orderStatus = "New" ∧
    ({ id := db.nextOrderId, customerWhatsapp := w.customerWhatsapp,
        orderStatus := "New" } : OrderRow) ∈ (createOrder db w items).fst.orders ∧
    ∀ o, (createOrder db w items).snd = Except.ok o → o.orderStatus = "New" := by
  have hw : w.orderStatus = "New" := by
    obtain ⟨cw, os⟩ := req
    have hos : os = none := hs
    subst hos
    cases cw with
    | none => simp [parseInsertOrder] at hp
    | some ww =>
      by_cases hl : ww.length < 1
      · simp [parseInsertOrder, hl] at hp
      · simp only [parseInsertOrder, hl, if_false] at hp
        have h2 := Except.ok.inj hp
        rw [← h2]
        rfl
  refine ⟨hw, ?_, ?_⟩
  · rw [createOrder_orders, ← hw]
    simp
  · intro o ho
    rw [createOrder_ok_row db w items o ho]
    exact hw

/-- C6 witness: a submission with no orderStatus parses to status "New", and
the created order's row with status "New" is in the final state. -/
theorem createOrder_status_default_witness :
    (parseInsertOrder { customerWhatsapp := some "9771234567", orderStatus := none }
        = Except.ok demoOrder) ∧
    demoOrder.orderStatus = "New" ∧
    ({ id := 1, customerWhatsapp := "9771234567", orderStatus := "New" } : OrderRow)
      ∈ (createOrder demoDb demoOrder demoItems).fst.orders :=
  ⟨by decide,
    (createOrder_status_default { customerWhatsapp := some "9771234567", orderStatus := none }
      demoOrder demoDb demoItems rfl (by decide)).1,
    (createOrder_status_default { customerWhatsapp := some "9771234567", orderStatus := none }
      demoOrder demoDb demoItems rfl (by decide)).2.1⟩

/-- C5 amended: creating a Tag colliding with an existing Tag's name or slug
fails, and updating a Tag into such a collision fails, with no tag row
created or changed — but the tags endpoints answer 500, not 409 (they have no
ConflictError mapping; see the counterexample). -/
theorem tagCollision_responds_500 (db : DB) (body body2 : TagReq) (t : InsertTag)
    (id : Nat) (p : TagPatch)
    (hpar : parseInsertTag body = Except.ok t)
    (hdup : db.tags.filter (fun x => x.name == t.name || x.slug == t.slug) ≠ [])
    (hpar2 : parseTagPatch body2 = Except.ok p)
    (htr : (truthy p.name || truthy p.slug) = true)
    (hdup2 : db.tags.filter (tagDupMatch p id) ≠ []) :
    postTagsRoute db true body = (db, 500) ∧
    patchTagsRoute db true id body2 = (db, 500) := by
  constructor
  · have hct : ∃ msg, createTag db t = (db, Except.error msg) := by
      unfold createTag
      cases hfil : db.tags.filter (fun x => x.name == t.name || x.slug == t.slug) with
      | nil => exact absurd hfil hdup
      | cons a l =>
        cases l with
        | nil => exact ⟨_, rfl⟩
        | cons b l2 => exact ⟨_, rfl⟩
    obtain ⟨msg, hct⟩ := hct
    simp [postTagsRoute, hpar, hct]
  · have hut : ∃ msg, updateTag db id p = (db, Except.error msg) := by
      unfold updateTag
      rw [if_pos (by rw [htr])]
      cases hfil : db.tags.filter (tagDupMatch p id) with
      | nil => exact absurd hfil hdup2
      | cons a l =>
        cases l with
        | nil => exact ⟨_, rfl⟩
        | cons b l2 => exact ⟨_, rfl⟩
    obtain ⟨msg, hut⟩ := hut
    simp [patchTagsRoute, hpar2, hut]

/-- C5 witness: against `demoDb` (existing tag "Sale"/"sale"), creating
name "Sale" and patching tag 2 to name "Sale" both answer 500 with the
database unchanged. -/
theorem tagCollision_responds_500_witness :
    (parseInsertTag { name := some "Sale", slug := some "sale-2" }
        = Except.ok { name := "Sale", slug := "sale-2" } ∧
      demoDb.tags.filter
          (fun x => x.name == "Sale" || x.slug == "sale-2") ≠ [] ∧
      parseTagPatch { name := some "Sale", slug := none }
        = Except.ok { name := some "Sale", slug := none } ∧
      demoDb.tags.filter (tagDupMatch { name := some "Sale", slug := none } 2) ≠ []) ∧
    postTagsRoute demoDb true { name := some "Sale", slug := some "sale-2" } = (demoDb, 500) ∧
    patchTagsRoute demoDb true 2 { name := some "Sale", slug := none } = (demoDb, 500) :=
  ⟨⟨by decide, by decide, by decide, by decide⟩,
    (tagCollision_responds_500 demoDb { name := some "Sale", slug := some "sale-2" }
      { name := some "Sale", slug := none } { name := "Sale", slug := "sale-2" } 2
      { name := some "Sale", slug := none }
      (by decide) (by decide) (by decide) (by decide) (by decide)).1,
    (tagCollision_responds_500 demoDb { name := some "Sale", slug := some "sale-2" }
      { name := some "Sale", slug := none } { name := "Sale", slug := "sale-2" } 2
      { name := some "Sale", slug := none }
      (by decide) (by decide) (by decide) (by decide) (by decide)).2⟩
